import Mathlib

/-!
Shallow embedding of `cmd/wsh/cmd/wshcmd-connserver.go` (waveterm connserver
command): the unix-domain listener setup, the per-connection handler with its
auth/teardown logic, the accept loop, the router-mode startup sequence, and
the router-mode stdin drain goroutine.  Side-effecting Go code is embedded as
pure functions producing explicit effect traces; collaborators that live
outside this file's source (wshutil, packetparser) are either abstracted as
parameters or modelled from the specification, as marked in doc comments.
-/

namespace ConnServer

/-- Route ids are opaque strings. -/
abbrev RouteId := String

/-- Modelled from the spec: the wshrpc command-name constant for the reserved
Dispose command (package wshrpc is not under src; the concrete string value is
opaque to this file's source). -/
def Command_Dispose : String := "dispose"

/-- Modelled from the spec: the wshutil command-name constant for the
authentication envelope (package wshutil is not under src). -/
def Command_Authenticate : String := "authenticate"

/-- Modelled from the spec: the distinguished sentinel route id naming the
single upstream destination (wshutil.UpstreamRoute is not under src). -/
def UpstreamRoute : String := "upstream"

/-- An RPC envelope as built by `handleNewListenerConn` for the synthesized
Dispose message: command name, the route id carried in the Dispose payload
(`CommandDisposeData.RouteId`), the source route id, and the auth token. -/
structure RpcMessage where
  command : String
  dataRouteId : String
  source : String
  authToken : String
deriving DecidableEq, Repr

/-- Observable side effects performed by the connserver code, in program
order. -/
inductive Effect where
  | close
  | unregisterRoute (routeId : String)
  | injectMessage (msg : RpcMessage) (fromRouteId : String)
  | registerRoute (routeId : String)
  | logError (m : String)
  | logInfo (m : String)
  | spawnHandler (connId : Nat)
  | doShutdown (reason : String) (exitCode : Nat)
  | sleepMs (ms : Nat)
  | removeFile (path : String)
  | listen (path : String)
  | chmod (path : String) (mode : Nat)
  | extractContext (token : String)
  | handleProxyAuthCall (token : String)
  | setAuthToken (token : String)
  | startAcceptLoop
  | routeAnnounce
deriving DecidableEq, Repr

/-! ## MakeRemoteUnixListener (lines 41-51)

`os.Remove(serverAddr)` (error ignored), then `net.Listen("unix", serverAddr)`;
on listen failure the error is returned; on success `os.Chmod(serverAddr, 0700)`
and a log line.  `listenOk` abstracts whether `net.Listen` succeeds. -/

def MakeRemoteUnixListener (serverAddr : String) (listenOk : Bool) :
    List Effect × Bool :=
  if listenOk then
    ([Effect.removeFile serverAddr, Effect.listen serverAddr,
      Effect.chmod serverAddr 0o700,
      Effect.logInfo ("Server [unix-domain] listening on " ++ serverAddr)], true)
  else
    ([Effect.removeFile serverAddr, Effect.listen serverAddr], false)

/-! ## handleNewListenerConn (lines 53-93)

The read goroutine's deferred teardown (lines 66-82): close the connection,
load `routeIdContainer`; only when the stored pointer is non-nil and the route
id non-empty, unregister the route and inject a synthesized Dispose envelope
under that route id.  The main body (lines 85-92): run the client-proxy auth
handshake; on error log and close (never registering); on success register the
route and store the route id into the container. -/

def connCloseTeardown (routeIdContainer : Option RouteId) (proxyAuthToken : String) :
    List Effect :=
  Effect.close ::
    (match routeIdContainer with
     | some rid =>
        if rid ≠ "" then
          [Effect.unregisterRoute rid,
           Effect.injectMessage
             { command := Command_Dispose
               dataRouteId := rid
               source := rid
               authToken := proxyAuthToken } rid]
        else []
     | none => [])

def handleNewListenerConnMain (authResult : Except String RouteId) :
    List Effect × Option RouteId :=
  match authResult with
  | Except.error e =>
      ([Effect.logError ("error handling client proxy auth: " ++ e), Effect.close], none)
  | Except.ok routeId =>
      ([Effect.registerRoute routeId], some routeId)

/-- Full effect trace of one connection's lifetime: the main body runs, then
the connection closes and the read worker's deferred teardown runs once, seeing
the container state the main body left behind. -/
def handleNewListenerConnTrace (authResult : Except String RouteId)
    (proxyAuthToken : String) : List Effect :=
  (handleNewListenerConnMain authResult).1 ++
    connCloseTeardown (handleNewListenerConnMain authResult).2 proxyAuthToken

/-! ## HandleClientProxyAuth

Modelled from the spec: `wshutil.HandleClientProxyAuth` is not under src.  Per
the spec it must receive exactly one authentication envelope within a bounded
grace period and present its token for validation; success yields a newly
minted route id; failure (missing/invalid token, timeout, malformed first
message) yields an AuthError. -/
def HandleClientProxyAuth (timedOut : Bool) (firstMsg : Option RpcMessage)
    (tokenValid : String → Bool) (mintedRouteId : RouteId) :
    Except String RouteId :=
  if timedOut then Except.error "AuthError: timeout waiting for authentication envelope"
  else
    match firstMsg with
    | none => Except.error "AuthError: missing authentication envelope"
    | some m =>
        if m.command ≠ Command_Authenticate then
          Except.error "AuthError: malformed first message"
        else if tokenValid m.authToken then Except.ok mintedRouteId
        else Except.error "AuthError: invalid token"

/-- The handshake fails: timeout, missing envelope, malformed first message, or
invalid token. -/
def handshakeFails (timedOut : Bool) (firstMsg : Option RpcMessage)
    (tokenValid : String → Bool) : Prop :=
  timedOut = true ∨ firstMsg = none ∨
    (∃ m, firstMsg = some m ∧
      (m.command ≠ Command_Authenticate ∨ tokenValid m.authToken = false))

/-! ## runListener (lines 95-112)

The accept loop: `Accept` returning `io.EOF` breaks the loop; any other error
is logged and the loop continues; a successful accept spawns a handler
goroutine.  The deferred function (lines 96-100) runs once the loop exits
(the listener is exhausted/closed): it logs, sleeps 500ms, and calls
`wshutil.DoShutdown("", 1, true)`. -/

inductive AcceptResult where
  | ok (connId : Nat)
  | eofErr
  | otherErr (m : String)
deriving DecidableEq, Repr

def runListenerLoop : List AcceptResult → List Effect
  | [] => []
  | AcceptResult.eofErr :: _ => []
  | AcceptResult.otherErr m :: rest =>
      Effect.logError ("error accepting connection: " ++ m) :: runListenerLoop rest
  | AcceptResult.ok c :: rest =>
      Effect.spawnHandler c :: runListenerLoop rest

def runListener (events : List AcceptResult) : List Effect :=
  runListenerLoop events ++
    [Effect.logInfo "listener closed, exiting", Effect.sleepMs 500,
     Effect.doShutdown "" 1]

/-! ## setupConnServerRpcClientWithRouter (lines 114-134)

Reads the jwt token from the well-known environment variable (`os.Getenv`
returns `""` when unset); extracts the unverified rpc context; calls the
Router's `HandleProxyAuth` admission entry point; only on its success builds
the client, sets the auth token, registers the route and announces it.  The
extraction and admission collaborators live in wshutil (not under src) and are
abstracted as `Except` parameters. -/

structure AuthRtnInfo where
  routeId : RouteId
  authToken : String
deriving DecidableEq, Repr

def setupConnServerRpcClientWithRouter (jwtToken : String)
    (extract : Except String String) (auth : Except String AuthRtnInfo) :
    Except String (AuthRtnInfo × List Effect) :=
  if jwtToken = "" then Except.error "no jwt token found for connserver"
  else
    match extract with
    | Except.error e => Except.error ("error extracting rpc context: " ++ e)
    | Except.ok _rpcCtx =>
        match auth with
        | Except.error e => Except.error ("error handling proxy auth: " ++ e)
        | Except.ok authRtn =>
            Except.ok (authRtn,
              [Effect.extractContext jwtToken,
               Effect.handleProxyAuthCall jwtToken,
               Effect.setAuthToken authRtn.authToken,
               Effect.registerRoute authRtn.routeId,
               Effect.routeAnnounce])

/-! ## serverRunRouter (lines 136-175)

Startup sequence: create the unix listener (on failure return an error), set
up the connserver rpc client (on failure return an error), and only then start
the accept loop goroutine.  The raw-channel drain goroutine (lines 147-154)
ignores every chunk delivered on `rawCh` and, when the channel closes (stdin
reached end-of-stream), its deferred `wshutil.DoShutdown("", 0, true)` runs. -/

def drainRawCh : List (List Nat) → List Effect
  | [] => [Effect.doShutdown "" 0]
  | _ :: rest => drainRawCh rest

def serverRunRouterStartup (listenerResult : Except String Unit)
    (setupResult : Except String (AuthRtnInfo × List Effect)) :
    Except String (List Effect) :=
  match listenerResult with
  | Except.error e => Except.error ("cannot create unix listener: " ++ e)
  | Except.ok _ =>
      match setupResult with
      | Except.error e => Except.error ("error setting up connserver rpc client: " ++ e)
      | Except.ok pr => Except.ok (pr.2 ++ [Effect.startAcceptLoop])

/-- Effects the process actually performs given a startup result: a startup
that returns an error performs none of the success-path effects. -/
def startupEffects (r : Except String (List Effect)) : List Effect :=
  match r with
  | Except.ok l => l
  | Except.error _ => []

/-! ## Framing codec

Modelled from the spec: the packetparser package is not under src.  Framed
packets are distinguished from ordinary data by a reserved marker byte; here a
packet is the marker byte, a length, then that many payload bytes; any
non-marker byte outside a frame is passthrough.  A partially received frame
outstanding at end-of-stream is discarded, never delivered. -/

def packetMarker : Nat := 27

/-- Decoder state: outside any frame, expecting the length byte of a frame, or
inside a frame with `k` payload bytes still owed and the payload collected so
far (reversed). -/
inductive ParseState where
  | idle
  | needLen
  | inPacket (k : Nat) (acc : List Nat)
deriving DecidableEq, Repr

/-- One-pass decoder.  Any state outstanding at end-of-stream is a partial
frame and is discarded. -/
def parseBytes : ParseState → List Nat → List (List Nat) × List Nat
  | _, [] => ([], [])
  | ParseState.idle, b :: rest =>
      if b = packetMarker then parseBytes ParseState.needLen rest
      else
        let pr := parseBytes ParseState.idle rest
        (pr.1, b :: pr.2)
  | ParseState.needLen, n :: rest =>
      if n = 0 then
        let pr := parseBytes ParseState.idle rest
        ([] :: pr.1, pr.2)
      else parseBytes (ParseState.inPacket n []) rest
  | ParseState.inPacket k acc, b :: rest =>
      if k ≤ 1 then
        let pr := parseBytes ParseState.idle rest
        ((b :: acc).reverse :: pr.1, pr.2)
      else parseBytes (ParseState.inPacket (k - 1) (b :: acc)) rest

/-- Decode a whole stream from the initial state. -/
def parse (stream : List Nat) : List (List Nat) × List Nat :=
  parseBytes ParseState.idle stream

/-- A source stream is an interleaving of whole framed packets and raw
passthrough bytes. -/
inductive StreamItem where
  | packet (payload : List Nat)
  | raw (b : Nat)
deriving DecidableEq, Repr

def encodeItem : StreamItem → List Nat
  | StreamItem.packet p => packetMarker :: p.length :: p
  | StreamItem.raw b => [b]

def encodeStream : List StreamItem → List Nat
  | [] => []
  | it :: rest => encodeItem it ++ encodeStream rest

def packetsOf : List StreamItem → List (List Nat)
  | [] => []
  | StreamItem.packet p :: rest => p :: packetsOf rest
  | StreamItem.raw _ :: rest => packetsOf rest

def rawsOf : List StreamItem → List Nat
  | [] => []
  | StreamItem.packet _ :: rest => rawsOf rest
  | StreamItem.raw b :: rest => b :: rawsOf rest

/-- Does this effect inject a synthesized Dispose envelope for the given route
id (Dispose command, payload route id, source and injection source all equal to
that id)? -/
def isDisposeInject (rid : String) : Effect → Bool
  | Effect.injectMessage msg fromId =>
      msg.command == Command_Dispose && msg.dataRouteId == rid &&
        msg.source == rid && fromId == rid
  | _ => false

/-- Is this effect an `unregisterRoute` call for the given route id? -/
def isUnregisterOf (rid : String) : Effect → Bool
  | Effect.unregisterRoute r => r == rid
  | _ => false

/-! ## Theorems -/

/-- Claim C1: for a connection that successfully authenticated and was
registered under a (necessarily nonempty) route id, closing the connection
runs the read worker's deferred teardown exactly once, yielding exactly one
`unregisterRoute` call for that route id and exactly one synthesized Dispose
envelope injected under that route id with that id as its source. -/
theorem registered_close_one_unregister_one_dispose (rid tok : String)
    (h : rid ≠ "") :
    ((handleNewListenerConnTrace (Except.ok rid) tok).filter
        (isUnregisterOf rid)).length = 1 ∧
    ((handleNewListenerConnTrace (Except.ok rid) tok).filter
        (isDisposeInject rid)).length = 1 := by
  simp [handleNewListenerConnTrace, handleNewListenerConnMain, connCloseTeardown,
        h, isDisposeInject, isUnregisterOf, List.filter, Command_Dispose]

/-- Witness for C1 at route id "r1", token "tok". -/
theorem registered_close_one_unregister_one_dispose_witness :
    ("r1" : String) ≠ "" ∧
    (((handleNewListenerConnTrace (Except.ok "r1") "tok").filter
        (isUnregisterOf "r1")).length = 1 ∧
     ((handleNewListenerConnTrace (Except.ok "r1") "tok").filter
        (isDisposeInject "r1")).length = 1) :=
  ⟨by decide, registered_close_one_unregister_one_dispose "r1" "tok" (by decide)⟩

/-- Claim C10: if the connection closes before registration completed (the
stored route-id container is still nil, or holds an empty id), the teardown
only closes the connection: it performs no `unregisterRoute` and injects no
Dispose envelope. -/
theorem pre_registration_close_no_unregister_no_dispose (tok : String) :
    connCloseTeardown none tok = [Effect.close] ∧
    connCloseTeardown (some "") tok = [Effect.close] := by
  constructor <;> simp [connCloseTeardown]

/-- Claim C2: whenever the authentication handshake fails (timeout, missing
envelope, malformed first message, or invalid token), `HandleClientProxyAuth`
returns an error, and on that error path the connection is closed and no
route is ever registered. -/
theorem auth_failure_closed_never_registered (timedOut : Bool)
    (firstMsg : Option RpcMessage) (tokenValid : String → Bool)
    (mintedRouteId tok : String)
    (h : handshakeFails timedOut firstMsg tokenValid) :
    (∃ e, HandleClientProxyAuth timedOut firstMsg tokenValid mintedRouteId =
      Except.error e) ∧
    ∀ e, HandleClientProxyAuth timedOut firstMsg tokenValid mintedRouteId =
        Except.error e →
      (Effect.close ∈ handleNewListenerConnTrace (Except.error e) tok ∧
       ∀ r, Effect.registerRoute r ∉ handleNewListenerConnTrace (Except.error e) tok) := by
  have hside : ∀ e : String,
      Effect.close ∈ handleNewListenerConnTrace (Except.error e) tok ∧
      ∀ r, Effect.registerRoute r ∉ handleNewListenerConnTrace (Except.error e) tok := by
    intro e
    constructor
    · simp [handleNewListenerConnTrace, handleNewListenerConnMain, connCloseTeardown]
    · intro r
      simp [handleNewListenerConnTrace, handleNewListenerConnMain, connCloseTeardown]
  refine ⟨?_, fun e _ => hside e⟩
  have hnotok : ∀ x : Except String RouteId, x.isOk = false →
      ∃ e, x = Except.error e := by
    intro x hx
    cases x with
    | error e => exact ⟨e, rfl⟩
    | ok v => simp [Except.isOk, Except.toBool] at hx
  refine hnotok _ ?_
  rcases h with h | h | ⟨m, hm, hbad⟩
  · simp [HandleClientProxyAuth, h, Except.isOk, Except.toBool]
  · subst h
    cases timedOut <;> simp [HandleClientProxyAuth, Except.isOk, Except.toBool]
  · subst hm
    by_cases ht : timedOut = true
    · simp [HandleClientProxyAuth, ht, Except.isOk, Except.toBool]
    · rcases hbad with hb | hb
      · simp [HandleClientProxyAuth, ht, hb, Except.isOk, Except.toBool]
      · by_cases hc : m.command = Command_Authenticate
        · simp [HandleClientProxyAuth, ht, hc, hb, Except.isOk, Except.toBool]
        · simp [HandleClientProxyAuth, ht, hc, Except.isOk, Except.toBool]

/-- Witness for C2: a timed-out handshake with no first message. -/
theorem auth_failure_closed_never_registered_witness :
    handshakeFails true none (fun _ => false) ∧
    ((∃ e, HandleClientProxyAuth true none (fun _ => false) "r" =
       Except.error e) ∧
     ∀ e, HandleClientProxyAuth true none (fun _ => false) "r" =
         Except.error e →
       (Effect.close ∈ handleNewListenerConnTrace (Except.error e) "t" ∧
        ∀ r, Effect.registerRoute r ∉ handleNewListenerConnTrace (Except.error e) "t")) :=
  ⟨Or.inl rfl,
   auth_failure_closed_never_registered true none (fun _ => false) "r" "t" (Or.inl rfl)⟩

/-- Draining the raw channel performs nothing per chunk; when the channel
closes (stdin end-of-stream) the deferred shutdown with exit code 0 runs. -/
theorem drainRawCh_eq (chunks : List (List Nat)) :
    drainRawCh chunks = [Effect.doShutdown "" 0] := by
  induction chunks with
  | nil => rfl
  | cons c rest ih => simpa [drainRawCh] using ih

/-- Consuming a whole packet payload from the head of the stream: the payload
(prefixed with the already-collected reversed accumulator) is emitted and
decoding resumes in the idle state. -/
theorem parseBytes_inPacket (p : List Nat) (acc s : List Nat) (hp : p ≠ []) :
    parseBytes (ParseState.inPacket p.length acc) (p ++ s) =
      ((acc.reverse ++ p) :: (parseBytes ParseState.idle s).1,
       (parseBytes ParseState.idle s).2) := by
  induction p generalizing acc with
  | nil => exact absurd rfl hp
  | cons b p2 ih =>
    cases p2 with
    | nil => simp [parseBytes]
    | cons c p3 =>
      have h2 : ¬ ((c :: p3).length + 1 ≤ 1) := by simp
      have := ih (b :: acc) (by simp)
      simp only [List.length_cons, List.cons_append] at this ⊢
      rw [parseBytes]
      simp only [if_neg h2, Nat.add_sub_cancel]
      rw [this]
      simp [List.append_assoc]

/-- Round trip: encoding an interleaving of packets and raw passthrough bytes
and decoding it recovers exactly the packets and exactly the raw bytes, each
in original order, provided no raw byte collides with the reserved marker. -/
theorem parse_encodeStream (items : List StreamItem)
    (h : ∀ b, StreamItem.raw b ∈ items → b ≠ packetMarker) :
    parse (encodeStream items) = (packetsOf items, rawsOf items) := by
  unfold parse
  induction items with
  | nil => simp [encodeStream, parseBytes, packetsOf, rawsOf]
  | cons it rest ih =>
    have hrest : ∀ b, StreamItem.raw b ∈ rest → b ≠ packetMarker := by
      intro b hb
      exact h b (List.mem_cons_of_mem _ hb)
    cases it with
    | packet p =>
      cases p with
      | nil =>
        simp [encodeStream, encodeItem, parseBytes, packetsOf, rawsOf, ih hrest]
      | cons b p2 =>
        have hpk := parseBytes_inPacket (b :: p2) [] (encodeStream rest) (by simp)
        simp only [List.cons_append, List.length_cons, List.nil_append,
                   List.reverse_nil] at hpk
        simp only [encodeStream, encodeItem, List.cons_append, List.length_cons]
        rw [parseBytes]
        rw [if_pos rfl]
        rw [parseBytes]
        rw [if_neg (by simp : ¬ (p2.length + 1 = 0))]
        rw [hpk, ih hrest]
        simp [packetsOf, rawsOf]
    | raw b =>
      have hb : b ≠ packetMarker := h b (List.mem_cons_self _ _)
      simp only [encodeStream, encodeItem, List.cons_append, List.nil_append]
      rw [parseBytes]
      simp only [if_neg hb]
      rw [ih hrest]
      simp [packetsOf, rawsOf]

/-- Claim C3 counterexample: the single non-packet byte 65 reaches the raw
channel as passthrough, yet the router-mode consumer of that channel produces
only the shutdown signal — the byte is discarded, never reproduced. -/
theorem router_mode_discards_passthrough_cex :
    (parse [65]).2 = [65] ∧ drainRawCh [[65]] = [Effect.doShutdown "" 0] :=
  ⟨rfl, rfl⟩

/-- Claim C3 (amended): the framing codec does reproduce non-packet bytes
byte-for-byte, in original order, on its passthrough output; but in router
mode `serverRunRouter` ignores and discards everything delivered on the raw
channel, emitting only the deferred shutdown when the channel closes. -/
theorem codec_passthrough_router_discards (items : List StreamItem)
    (chunks : List (List Nat))
    (h : ∀ b, StreamItem.raw b ∈ items → b ≠ packetMarker) :
    (parse (encodeStream items)).2 = rawsOf items ∧
    drainRawCh chunks = [Effect.doShutdown "" 0] := by
  refine ⟨?_, drainRawCh_eq chunks⟩
  rw [parse_encodeStream items h]

/-- Witness for C3 (amended) on the stream raw 65, packet [1, 2], raw 66. -/
theorem codec_passthrough_router_discards_witness :
    (parse (encodeStream
        [StreamItem.raw 65, StreamItem.packet [1, 2], StreamItem.raw 66])).2 =
      rawsOf [StreamItem.raw 65, StreamItem.packet [1, 2], StreamItem.raw 66] ∧
    drainRawCh [[65], [66]] = [Effect.doShutdown "" 0] :=
  codec_passthrough_router_discards
    [StreamItem.raw 65, StreamItem.packet [1, 2], StreamItem.raw 66]
    [[65], [66]]
    (by
      intro b hb
      have hb2 : b = 65 ∨ b = 66 := by simpa using hb
      rcases hb2 with rfl | rfl <;> decide)

/-- Claim C5: in router mode, once stdin reaches end-of-stream the raw-channel
drain goroutine initiates shutdown with exit code 0, having attempted no
message delivery at all (its whole trace is the single shutdown effect). -/
theorem stdin_eof_shutdown_zero (chunks : List (List Nat)) :
    drainRawCh chunks = [Effect.doShutdown "" 0] ∧
    ∀ m t, Effect.injectMessage m t ∉ drainRawCh chunks := by
  refine ⟨drainRawCh_eq chunks, ?_⟩
  intro m t
  rw [drainRawCh_eq]
  simp

/-- Witness for C5 after two ignored chunks. -/
theorem stdin_eof_shutdown_zero_witness :
    drainRawCh [[1, 2], [3]] = [Effect.doShutdown "" 0] :=
  (stdin_eof_shutdown_zero [[1, 2], [3]]).1

/-- The accept loop body itself emits only log and spawn effects — in
particular never a shutdown. -/
theorem runListenerLoop_only_log_spawn (events : List AcceptResult) :
    ∀ e, e ∈ runListenerLoop events →
      (∃ s, e = Effect.logError s) ∨ (∃ c, e = Effect.spawnHandler c) := by
  induction events with
  | nil => simp [runListenerLoop]
  | cons ev rest ih =>
    cases ev with
    | eofErr => simp [runListenerLoop]
    | otherErr m =>
      intro e he
      rcases List.mem_cons.mp (by simpa [runListenerLoop] using he) with h1 | h1
      · exact Or.inl ⟨_, h1⟩
      · exact ih e h1
    | ok c =>
      intro e he
      rcases List.mem_cons.mp (by simpa [runListenerLoop] using he) with h1 | h1
      · exact Or.inr ⟨_, h1⟩
      · exact ih e h1

/-- Claim C4 counterexample: on the clean end-of-stream closure of the accept
listener (the expected-shutdown path, via the `io.EOF` break), the process
still exits with code 1 — exit code 0 never occurs on listener closure. -/
theorem listener_eof_still_exit_one_cex :
    runListener [AcceptResult.eofErr] =
      [Effect.logInfo "listener closed, exiting", Effect.sleepMs 500,
       Effect.doShutdown "" 1] ∧
    Effect.doShutdown "" 0 ∉ runListener [AcceptResult.eofErr] := by
  refine ⟨rfl, ?_⟩
  decide

/-- Claim C4 (amended): whenever the accept listener closes — expectedly (EOF)
or not — the process exits after a 500ms grace delay, always with exit code 1;
every shutdown effect emitted by the accept loop carries exit code 1, so exit
code 0 never arises from listener closure. -/
theorem listener_close_always_exit_one (events : List AcceptResult) :
    Effect.sleepMs 500 ∈ runListener events ∧
    Effect.doShutdown "" 1 ∈ runListener events ∧
    ∀ s n, Effect.doShutdown s n ∈ runListener events → s = "" ∧ n = 1 := by
  refine ⟨?_, ?_, ?_⟩
  · simp [runListener]
  · simp [runListener]
  · intro s n hmem
    rcases List.mem_append.mp hmem with h1 | h1
    · rcases runListenerLoop_only_log_spawn events _ h1 with ⟨s2, hs⟩ | ⟨c2, hs⟩ <;>
        simp at hs
    · simp only [List.mem_cons, List.not_mem_nil, or_false] at h1
      rcases h1 with h1 | h1 | h1 <;> simp at h1
      exact h1

/-- Witness for C4 (amended) on a trace with one accepted connection. -/
theorem listener_close_always_exit_one_witness :
    Effect.sleepMs 500 ∈ runListener [AcceptResult.ok 7] ∧
    (("" : String) = "" ∧ (1 : Nat) = 1) :=
  ⟨(listener_close_always_exit_one [AcceptResult.ok 7]).1,
   (listener_close_always_exit_one [AcceptResult.ok 7]).2.2 "" 1 (by decide)⟩

/-- Claim C6: the connection-context is extracted from the startup token
without verification, but the local connserver client's route is registered
only when the Router's `HandleProxyAuth` admission call returned without
error, and in the emitted trace the registration follows the admission call;
when admission fails no registration ever happens. -/
theorem route_registered_only_after_proxy_auth (jwt : String)
    (extract : Except String String) (auth : Except String AuthRtnInfo) :
    (∀ a effs,
      setupConnServerRpcClientWithRouter jwt extract auth = Except.ok (a, effs) →
        auth = Except.ok a ∧
        effs = [Effect.extractContext jwt, Effect.handleProxyAuthCall jwt,
                Effect.setAuthToken a.authToken, Effect.registerRoute a.routeId,
                Effect.routeAnnounce]) ∧
    (∀ e, auth = Except.error e →
      ∀ a effs,
        setupConnServerRpcClientWithRouter jwt extract auth ≠ Except.ok (a, effs)) := by
  constructor
  · intro a effs hok
    by_cases hj : jwt = ""
    · simp [setupConnServerRpcClientWithRouter, hj] at hok
    · cases extract with
      | error e2 => simp [setupConnServerRpcClientWithRouter, hj] at hok
      | ok ctx =>
        cases auth with
        | error e2 => simp [setupConnServerRpcClientWithRouter, hj] at hok
        | ok ar =>
          simp only [setupConnServerRpcClientWithRouter, if_neg hj,
                     Except.ok.injEq, Prod.mk.injEq] at hok
          obtain ⟨h1, h2⟩ := hok
          subst h1
          subst h2
          exact ⟨rfl, rfl⟩
  · intro e he a effs hok
    by_cases hj : jwt = "" <;> cases extract <;>
      simp [setupConnServerRpcClientWithRouter, hj, he] at hok

/-- Witness for C6 with a valid admission result. -/
theorem route_registered_only_after_proxy_auth_witness :
    (Except.ok (AuthRtnInfo.mk "r1" "t1") : Except String AuthRtnInfo) =
      Except.ok (AuthRtnInfo.mk "r1" "t1") ∧
    [Effect.extractContext "j", Effect.handleProxyAuthCall "j",
     Effect.setAuthToken "t1", Effect.registerRoute "r1", Effect.routeAnnounce] =
      [Effect.extractContext "j", Effect.handleProxyAuthCall "j",
       Effect.setAuthToken (AuthRtnInfo.mk "r1" "t1").authToken,
       Effect.registerRoute (AuthRtnInfo.mk "r1" "t1").routeId,
       Effect.routeAnnounce] :=
  (route_registered_only_after_proxy_auth "j" (Except.ok "ctx")
      (Except.ok (AuthRtnInfo.mk "r1" "t1"))).1
    (AuthRtnInfo.mk "r1" "t1")
    [Effect.extractContext "j", Effect.handleProxyAuthCall "j",
     Effect.setAuthToken "t1", Effect.registerRoute "r1", Effect.routeAnnounce]
    (by simp [setupConnServerRpcClientWithRouter])

/-- Claim C7: a missing startup credential (empty environment variable), a
context-extraction failure, or an admission failure makes router-mode startup
return an error, and the accept loop is never started. -/
theorem missing_credential_never_serves (jwt : String)
    (extract : Except String String) (auth : Except String AuthRtnInfo)
    (lres : Except String Unit)
    (h : jwt = "" ∨ (∃ e, extract = Except.error e) ∨
         (∃ e, auth = Except.error e)) :
    (∃ msg, serverRunRouterStartup lres
        (setupConnServerRpcClientWithRouter jwt extract auth) =
          Except.error msg) ∧
    Effect.startAcceptLoop ∉
      startupEffects (serverRunRouterStartup lres
        (setupConnServerRpcClientWithRouter jwt extract auth)) := by
  have hsetup : ∃ e, setupConnServerRpcClientWithRouter jwt extract auth =
      Except.error e := by
    rcases h with h | ⟨e, he⟩ | ⟨e, he⟩
    · exact ⟨"no jwt token found for connserver",
        by simp [setupConnServerRpcClientWithRouter, h]⟩
    · by_cases hj : jwt = ""
      · exact ⟨"no jwt token found for connserver",
          by simp [setupConnServerRpcClientWithRouter, hj]⟩
      · exact ⟨"error extracting rpc context: " ++ e,
          by simp [setupConnServerRpcClientWithRouter, hj, he]⟩
    · by_cases hj : jwt = ""
      · exact ⟨"no jwt token found for connserver",
          by simp [setupConnServerRpcClientWithRouter, hj]⟩
      · cases extract with
        | error e2 =>
            exact ⟨"error extracting rpc context: " ++ e2,
              by simp [setupConnServerRpcClientWithRouter, hj]⟩
        | ok ctx =>
            exact ⟨"error handling proxy auth: " ++ e,
              by simp [setupConnServerRpcClientWithRouter, hj, he]⟩
  obtain ⟨e, he⟩ := hsetup
  rw [he]
  cases lres with
  | error le => exact ⟨⟨_, rfl⟩, by simp [serverRunRouterStartup, startupEffects]⟩
  | ok u => exact ⟨⟨_, rfl⟩, by simp [serverRunRouterStartup, startupEffects]⟩

/-- Witness for C7 with the environment variable unset. -/
theorem missing_credential_never_serves_witness :
    (∃ msg, serverRunRouterStartup (Except.ok ())
        (setupConnServerRpcClientWithRouter "" (Except.ok "c")
          (Except.ok (AuthRtnInfo.mk "r" "t"))) = Except.error msg) ∧
    Effect.startAcceptLoop ∉
      startupEffects (serverRunRouterStartup (Except.ok ())
        (setupConnServerRpcClientWithRouter "" (Except.ok "c")
          (Except.ok (AuthRtnInfo.mk "r" "t")))) :=
  missing_credential_never_serves "" (Except.ok "c")
    (Except.ok (AuthRtnInfo.mk "r" "t")) (Except.ok ()) (Or.inl rfl)

/-- Claim C8: a non-EOF accept error contributes exactly one log effect and
the loop continues on the remaining events exactly as it would have; moreover
the loop body only ever logs or spawns handlers, so a per-accept failure never
shuts the process down or touches existing connections. -/
theorem accept_error_logged_loop_continues (m : String)
    (rest : List AcceptResult) :
    runListener (AcceptResult.otherErr m :: rest) =
      Effect.logError ("error accepting connection: " ++ m) :: runListener rest ∧
    ∀ e, e ∈ runListenerLoop (AcceptResult.otherErr m :: rest) →
      (∃ s, e = Effect.logError s) ∨ (∃ c, e = Effect.spawnHandler c) := by
  refine ⟨?_, runListenerLoop_only_log_spawn _⟩
  simp [runListener, runListenerLoop]

/-- Witness for C8: one failed accept followed by one successful accept. -/
theorem accept_error_logged_loop_continues_witness :
    runListener [AcceptResult.otherErr "boom", AcceptResult.ok 1] =
      Effect.logError ("error accepting connection: " ++ "boom") ::
        runListener [AcceptResult.ok 1] ∧
    ((∃ s, Effect.logError ("error accepting connection: " ++ "boom") =
        Effect.logError s) ∨
     (∃ c, Effect.logError ("error accepting connection: " ++ "boom") =
        Effect.spawnHandler c)) :=
  ⟨(accept_error_logged_loop_continues "boom" [AcceptResult.ok 1]).1,
   (accept_error_logged_loop_continues "boom" [AcceptResult.ok 1]).2 _
     (by decide)⟩

/-- Claim C9: the socket path is removed strictly before the listener is
created at that path, and on success the created socket file is chmodded to
owner-only 0700 permissions. -/
theorem socket_removed_before_listen_and_chmod_0700 (addr : String)
    (listenOk : Bool) :
    (∃ rest, (MakeRemoteUnixListener addr listenOk).1 =
      Effect.removeFile addr :: Effect.listen addr :: rest) ∧
    (listenOk = true →
      Effect.chmod addr 0o700 ∈ (MakeRemoteUnixListener addr listenOk).1) := by
  cases listenOk with
  | false =>
    refine ⟨⟨[], by simp [MakeRemoteUnixListener]⟩, ?_⟩
    intro hfalse
    exact absurd hfalse (by simp)
  | true =>
    refine ⟨⟨[Effect.chmod addr 0o700,
              Effect.logInfo ("Server [unix-domain] listening on " ++ addr)],
            by simp [MakeRemoteUnixListener]⟩, ?_⟩
    intro _
    simp [MakeRemoteUnixListener]

/-- Witness for C9 at a concrete path with a successful listen. -/
theorem socket_removed_before_listen_and_chmod_0700_witness :
    (∃ rest, (MakeRemoteUnixListener "s" true).1 =
      Effect.removeFile "s" :: Effect.listen "s" :: rest) ∧
    Effect.chmod "s" 0o700 ∈ (MakeRemoteUnixListener "s" true).1 :=
  ⟨(socket_removed_before_listen_and_chmod_0700 "s" true).1,
   (socket_removed_before_listen_and_chmod_0700 "s" true).2 rfl⟩

end ConnServer
